import Mathlib

/-!
Verification development for the ESP32 SD/MMC host driver
(`sdmmc_host_esp32`).  The Rust sources are shallowly embedded: machine
integers (`u8`, `u32`) become `Nat` with explicit masking where overflow or
truncation matters, fallible code returns `Except`/`Option`, and hardware
register state is passed explicitly.  Names follow the source
(`src/cmd.rs`, `src/common.rs`, `src/sdmmc.rs`, `src/sdmmc_sd.rs`,
`src/lib.rs`).
-/

namespace SdmmcHost

/-! ## Bit constants, from `src/common.rs` (`bit!(n)` is `1 << n`). -/

def SDMMC_INTMASK_IO_SLOT1 : Nat := 1 <<< 17
def SDMMC_INTMASK_IO_SLOT0 : Nat := 1 <<< 16
def SDMMC_INTMASK_EBE : Nat := 1 <<< 15
def SDMMC_INTMASK_ACD : Nat := 1 <<< 14
def SDMMC_INTMASK_SBE : Nat := 1 <<< 13
def SDMMC_INTMASK_HLE : Nat := 1 <<< 12
def SDMMC_INTMASK_FRUN : Nat := 1 <<< 11
def SDMMC_INTMASK_HTO : Nat := 1 <<< 10
def SDMMC_INTMASK_VOLT_SW : Nat := SDMMC_INTMASK_HTO
def SDMMC_INTMASK_DTO : Nat := 1 <<< 9
def SDMMC_INTMASK_RTO : Nat := 1 <<< 8
def SDMMC_INTMASK_DCRC : Nat := 1 <<< 7
def SDMMC_INTMASK_RCRC : Nat := 1 <<< 6
def SDMMC_INTMASK_RXDR : Nat := 1 <<< 5
def SDMMC_INTMASK_TXDR : Nat := 1 <<< 4
def SDMMC_INTMASK_DATA_OVER : Nat := 1 <<< 3
def SDMMC_INTMASK_CMD_DONE : Nat := 1 <<< 2
def SDMMC_INTMASK_RESP_ERR : Nat := 1 <<< 1
def SDMMC_INTMASK_CD : Nat := 1 <<< 0
def SDMMC_IDMAC_INTMASK_AI : Nat := 1 <<< 9
def SDMMC_IDMAC_INTMASK_NI : Nat := 1 <<< 8
def SDMMC_IDMAC_INTMASK_CES : Nat := 1 <<< 5
def SDMMC_IDMAC_INTMASK_DU : Nat := 1 <<< 4
def SDMMC_IDMAC_INTMASK_FBE : Nat := 1 <<< 2
def SDMMC_IDMAC_INTMASK_RI : Nat := 1 <<< 1
def SDMMC_IDMAC_INTMASK_TI : Nat := 1 <<< 0

def SD_DATA_ERR_MASK : Nat :=
  SDMMC_INTMASK_DTO ||| SDMMC_INTMASK_DCRC ||| SDMMC_INTMASK_HTO |||
  SDMMC_INTMASK_SBE ||| SDMMC_INTMASK_EBE

def SD_DMA_DONE_MASK : Nat :=
  SDMMC_IDMAC_INTMASK_RI ||| SDMMC_IDMAC_INTMASK_TI ||| SDMMC_IDMAC_INTMASK_NI

def SD_CMD_ERR_MASK : Nat :=
  SDMMC_INTMASK_RTO ||| SDMMC_INTMASK_RCRC ||| SDMMC_INTMASK_RESP_ERR

/-! Opcodes used by the hardware-command encoder (`src/common.rs`). -/

def MMC_GO_IDLE_STATE : Nat := 0
def MMC_READ_DAT_UNTIL_STOP : Nat := 11
def MMC_STOP_TRANSMISSION : Nat := 12
def MMC_READ_BLOCK_MULTIPLE : Nat := 18
def MMC_WRITE_DAT_UNTIL_STOP : Nat := 20
def MMC_WRITE_BLOCK_MULTIPLE : Nat := 25
def SD_SWITCH_VOLTAGE : Nat := 11

/-! Descriptor protocol flags (`src/common.rs`). -/

def SCF_CMD_READ : Nat := 0x0040
def SCF_RSP_BSY : Nat := 0x0100
def SCF_RSP_136 : Nat := 0x0200
def SCF_RSP_CRC : Nat := 0x0400
def SCF_RSP_IDX : Nat := 0x0800
def SCF_RSP_PRESENT : Nat := 0x1000
def SCF_WAIT_BUSY : Nat := 0x2000

def APB_CLK_FREQ : Nat := 80 * 1000000

/-! ## Error type (`src/lib.rs`). -/

inductive Error where
  | InvalidArg
  | Timeout
  | NotFound
  | InvalidCRC
  | InvalidResponce
  | InvalidSize
  | Fail
  | NotSupported
  | InvalidState
deriving DecidableEq, Repr

inductive Slot where
  | Slot0
  | Slot1
deriving DecidableEq, Repr

/-- `slot as u8` in the Rust source: the raw enum discriminant
(`Slot0 = 0`, `Slot1 = 1`).  Note this is distinct from `Slot::bit()`
(`1 << discriminant`), which the source defines but does not use in
`start_cmd`. -/
def Slot.num : Slot → Nat
  | .Slot0 => 0
  | .Slot1 => 1

/-- `Slot::bit()` from `src/lib.rs`. -/
def Slot.bitMask : Slot → Nat
  | .Slot0 => 1
  | .Slot1 => 2

/-! ## Command descriptor (`src/cmd.rs`, struct `SdmmcCmd`).

The borrowed data buffer is represented only by its presence (`data`),
which is all the control flow inspects (`self.data.is_some()`); the
response words are four explicit fields. -/

structure SdmmcCmd where
  opcode : Nat
  arg : Nat
  responce0 : Nat
  responce1 : Nat
  responce2 : Nat
  responce3 : Nat
  data : Bool
  datalen : Nat
  buflen : Nat
  blklen : Nat
  flags : Nat
  err : Option Error
  timeout_ms : Nat
deriving DecidableEq, Repr

/-- `SdmmcCmd::has_flag` from `src/cmd.rs`. -/
def SdmmcCmd.has_flag (c : SdmmcCmd) (flag : Nat) : Bool :=
  c.flags &&& flag != 0

/-- Modelled from the spec: the hardware command word type `SdmmcHwCmd`
(declared as `mod hw_cmd` in `src/lib.rs` but its file is not present in
the sources).  Per spec section 3 it is a pure bitfield holding: command
index, stop/abort, init-sequence, voltage-switch, wait-for-completion,
response-expected/long/CRC-checked, data-expected/direction/auto-stop,
hold-register-use, register-update, start-command and target slot.  Each
`with_x` builder used by the source sets exactly the named field; the
default has every flag clear. -/
structure SdmmcHwCmd where
  cmd_index : Nat := 0
  stop_abort_cmd : Bool := false
  send_init : Bool := false
  volt_switch : Bool := false
  wait_complete : Bool := false
  response_expect : Bool := false
  response_long : Bool := false
  check_response_crc : Bool := false
  data_expected : Bool := false
  rw : Bool := false
  send_auto_stop : Bool := false
  use_hold_reg : Bool := false
  update_clk_reg : Bool := false
  start_command : Bool := false
  card_num : Nat := 0
deriving DecidableEq, Repr, Inhabited

/-- `SdmmcCmd::make_hw_cmd` from `src/cmd.rs`.  The source begins with
`assert!(self.datalen % self.blklen == 0)` when a data buffer is present;
an assertion failure (including the division-by-zero panic when
`blklen == 0`) is modelled as `none`. -/
def make_hw_cmd (c : SdmmcCmd) : Option SdmmcHwCmd :=
  if c.data && (c.blklen == 0 || c.datalen % c.blklen != 0) then
    none
  else
    some
      { cmd_index := c.opcode
        stop_abort_cmd := c.opcode == MMC_STOP_TRANSMISSION
        send_init := c.opcode == MMC_GO_IDLE_STATE
        volt_switch := c.opcode == SD_SWITCH_VOLTAGE
        wait_complete :=
          c.opcode != MMC_STOP_TRANSMISSION &&
          c.opcode != MMC_GO_IDLE_STATE &&
          c.opcode != SD_SWITCH_VOLTAGE
        response_expect := c.has_flag SCF_RSP_PRESENT
        response_long := c.has_flag SCF_RSP_PRESENT && c.has_flag SCF_RSP_136
        check_response_crc := c.has_flag SCF_RSP_CRC
        data_expected := c.data
        rw := c.data && c.has_flag SCF_CMD_READ
        send_auto_stop :=
          c.data && decide (0 < c.datalen) &&
          (c.opcode == MMC_WRITE_BLOCK_MULTIPLE ||
           c.opcode == MMC_READ_BLOCK_MULTIPLE ||
           c.opcode == MMC_WRITE_DAT_UNTIL_STOP ||
           c.opcode == MMC_READ_DAT_UNTIL_STOP) }

/-! ## Events and the transaction state machine (`src/sdmmc_sd.rs`). -/

/-- `Event` from `src/lib.rs` (`mod inter`): one snapshot pair captured per
interrupt invocation. -/
structure Event where
  sdmmc_status : Nat
  dma_status : Nat
deriving DecidableEq, Repr

/-- `State` from `src/sdmmc_sd.rs`. -/
inductive State where
  | None
  | Idle
  | SendingCmd
  | SendingData
  | Busy
  | SendingVoltageSwitch
  | WaitingVoltageSwitch
deriving DecidableEq, Repr

def U32_MAX : Nat := 0xffffffff

/-- `mask_check_and_clear` from `src/sdmmc_sd.rs`: reports whether any bit
of `mask` is set in `state` and clears the whole mask.  The `u32`
complement `!mask` is `mask ^^^ 0xffffffff`. -/
def mask_check_and_clear (state mask : Nat) : Bool × Nat :=
  (state &&& mask != 0, state &&& (mask ^^^ U32_MAX))

/-- Hardware environment visible to the transaction engine: the response
registers `resp0..resp3`, the card-detect and write-protect input
registers, and the `cmd_taken` (start_cmd bit clear) condition the
busy-wait loops poll.  Registers are snapshots: one transaction step reads
a stable value. -/
structure HwEnv where
  resp0 : Nat := 0
  resp1 : Nat := 0
  resp2 : Nat := 0
  resp3 : Nat := 0
  cdetect : Nat := 0
  wrtprt : Nat := 0
  cmd_taken : Bool := true
deriving DecidableEq, Repr

/-- Hardware side effects performed by the state machine, recorded as a
trace.  `voltSwitchStage2` marks the call to `handle_voltage_switch_stage2`
(whose body contains a `todo!()` in the source) and `voltSwitchStage3` the
call to `handle_voltage_switch_stage3`. -/
inductive Eff where
  | dmaStop
  | fifoReset
  | voltSwitchStage2
  | voltSwitchStage3
deriving DecidableEq, Repr

/-- `process_command_response` from `src/sdmmc_sd.rs`.  Captures response
registers per the response-shape flags, then classifies a command error
from `status` (priority: RTO, then CRC when checked, then response error);
`cmd.err` is only written when the classification produces an error.  When
an error is recorded and a data buffer is attached, DMA is stopped. -/
def process_command_response (hw : HwEnv) (status : Nat) (cmd : SdmmcCmd) :
    SdmmcCmd × List Eff :=
  let cmd :=
    if cmd.has_flag SCF_RSP_PRESENT then
      if cmd.has_flag SCF_RSP_136 then
        { cmd with responce0 := hw.resp0, responce1 := hw.resp1,
                   responce2 := hw.resp2, responce3 := hw.resp3 }
      else
        { cmd with responce0 := hw.resp0, responce1 := 0,
                   responce2 := 0, responce3 := 0 }
    else cmd
  match (if status &&& SDMMC_INTMASK_RTO != 0 then some Error.Timeout
         else if cmd.has_flag SCF_RSP_CRC && status &&& SDMMC_INTMASK_RCRC != 0 then
           some Error.InvalidCRC
         else if status &&& SDMMC_INTMASK_RESP_ERR != 0 then
           some Error.InvalidResponce
         else none) with
  | some e => ({ cmd with err := some e }, if cmd.data then [Eff.dmaStop] else [])
  | none => (cmd, [])

/-- `process_data_status` from `src/sdmmc_sd.rs`.  Classifies a data error
(priority: data timeout, data CRC, end-bit error on a non-read, generic
failure), resetting the FIFO whenever a data-error bit is present; then
stops DMA when an error is recorded and a data buffer is attached. -/
def process_data_status (status : Nat) (cmd : SdmmcCmd) : SdmmcCmd × List Eff :=
  let e :=
    if status &&& SDMMC_INTMASK_DTO != 0 then Error.Timeout
    else if status &&& SDMMC_INTMASK_DCRC != 0 then Error.InvalidCRC
    else if status &&& SDMMC_INTMASK_EBE != 0 && !cmd.has_flag SCF_CMD_READ then
      Error.Timeout
    else Error.Fail
  let r :=
    if status &&& SD_DATA_ERR_MASK != 0 then
      ({ cmd with err := some e }, [Eff.fifoReset])
    else (cmd, [])
  if r.1.err.isSome && r.1.data then (r.1, r.2 ++ [Eff.dmaStop]) else r

/-- Result of one iteration of the match body inside `process_events`. -/
structure StepRes where
  next : State
  cmd : SdmmcCmd
  ev : Event
  effs : List Eff
deriving DecidableEq, Repr

/-- One execution of the `match state` body of `process_events`
(`src/sdmmc_sd.rs`), at current state `s`, acting on the working snapshot
`ev`; `orig` is the event as merged on entry (`orig_evt`), which the
source consults for error classification and the short-circuit check.
The `State::None` arm is `unreachable!()` in the source (the loop is never
entered with `next_state = State::None`); it is modelled as a no-op. -/
def stepState (hw : HwEnv) (orig : Event) (s : State) (cmd : SdmmcCmd)
    (ev : Event) : StepRes :=
  match s with
  | .None => ⟨.None, cmd, ev, []⟩
  | .Idle => ⟨.Idle, cmd, ev, []⟩
  | .SendingCmd =>
    let m1 := mask_check_and_clear ev.sdmmc_status SD_CMD_ERR_MASK
    let r1 := if m1.1 then process_command_response hw orig.sdmmc_status cmd
              else (cmd, [])
    let m2 := mask_check_and_clear m1.2 SDMMC_INTMASK_CMD_DONE
    if m2.1 then
      let r2 := process_command_response hw orig.sdmmc_status r1.1
      let next := if r2.1.err.isSome then State.Idle
                  else if !r2.1.data then State.Idle
                  else State.SendingData
      ⟨next, r2.1, { ev with sdmmc_status := m2.2 }, r1.2 ++ r2.2⟩
    else
      ⟨.SendingCmd, r1.1, { ev with sdmmc_status := m2.2 }, r1.2⟩
  | .SendingData =>
    let m1 := mask_check_and_clear ev.sdmmc_status SD_DATA_ERR_MASK
    let r1 := if m1.1 then
        let r := process_data_status orig.sdmmc_status cmd
        (r.1, r.2 ++ [Eff.dmaStop])
      else (cmd, [])
    let m2 := mask_check_and_clear ev.dma_status SD_DMA_DONE_MASK
    let next1 := if m2.1 then State.Busy else State.SendingData
    let next2 :=
      if orig.sdmmc_status &&& (SDMMC_INTMASK_SBE ||| SDMMC_INTMASK_DATA_OVER) != 0
      then State.Idle else next1
    ⟨next2, r1.1, ⟨m1.2, m2.2⟩, r1.2⟩
  | .Busy =>
    let m1 := mask_check_and_clear ev.sdmmc_status SDMMC_INTMASK_DATA_OVER
    if m1.1 then
      let r := process_data_status orig.sdmmc_status cmd
      ⟨.Idle, r.1, { ev with sdmmc_status := m1.2 }, r.2⟩
    else ⟨.Busy, cmd, { ev with sdmmc_status := m1.2 }, []⟩
  | .SendingVoltageSwitch =>
    let m1 := mask_check_and_clear ev.sdmmc_status SD_CMD_ERR_MASK
    let r1 := if m1.1 then
        let r := process_command_response hw orig.sdmmc_status cmd
        (r.1, State.Idle, r.2)
      else (cmd, State.SendingVoltageSwitch, ([] : List Eff))
    let m2 := mask_check_and_clear m1.2 SDMMC_INTMASK_VOLT_SW
    if m2.1 then
      let next := if r1.1.err.isSome then State.Idle else State.WaitingVoltageSwitch
      ⟨next, r1.1, { ev with sdmmc_status := m2.2 }, r1.2.2 ++ [Eff.voltSwitchStage2]⟩
    else
      ⟨r1.2.1, r1.1, { ev with sdmmc_status := m2.2 }, r1.2.2⟩
  | .WaitingVoltageSwitch =>
    let m1 := mask_check_and_clear ev.sdmmc_status SD_CMD_ERR_MASK
    let r1 := if m1.1 then
        let r := process_command_response hw orig.sdmmc_status cmd
        (r.1, State.Idle, r.2)
      else (cmd, State.WaitingVoltageSwitch, ([] : List Eff))
    let m2 := mask_check_and_clear m1.2 SDMMC_INTMASK_VOLT_SW
    if m2.1 then
      ⟨.Idle, r1.1, { ev with sdmmc_status := m2.2 }, r1.2.2 ++ [Eff.voltSwitchStage3]⟩
    else
      ⟨r1.2.1, r1.1, { ev with sdmmc_status := m2.2 }, r1.2.2⟩

/-- Final configuration of the fixed-point loop of `process_events`:
the state stored back to `*pstate`, the updated command, the remaining
working snapshot (stored into `unhandled`), the sequence of states whose
match arms executed, the hardware effects, and whether the loop reached
its fixed point (always true; the fuel is an upper bound proven
sufficient). -/
structure LoopRes where
  state : State
  cmd : SdmmcCmd
  ev : Event
  visited : List State
  effs : List Eff
  complete : Bool
deriving DecidableEq, Repr

/-- The `while next_state != state` fixed-point loop of `process_events`,
with explicit fuel.  `state` starts as `State::None` and `next` as the
entry state `*pstate`. -/
def event_loop (hw : HwEnv) (orig : Event) :
    Nat → State → State → SdmmcCmd → Event → List State → List Eff → LoopRes
  | 0, _, next, cmd, ev, vis, effs => ⟨next, cmd, ev, vis, effs, false⟩
  | n + 1, state, next, cmd, ev, vis, effs =>
    if next = state then ⟨state, cmd, ev, vis, effs, true⟩
    else
      let r := stepState hw orig next cmd ev
      event_loop hw orig n next r.next r.cmd r.ev (vis ++ [next]) (effs ++ r.effs)

/-- `process_events` from `src/sdmmc_sd.rs`: runs the fixed-point loop on
the merged snapshot `event` (which is also `orig_evt`), starting from
`*pstate`; afterwards the source stores the final state into `*pstate` and
the remaining snapshot bits into `unhandled`.  Six units of fuel strictly
exceed the longest possible state chain (proved below). -/
def process_events (hw : HwEnv) (cmd : SdmmcCmd) (pstate : State)
    (event : Event) : LoopRes :=
  event_loop hw event 6 State.None pstate cmd event [] []

/-- `handle_event` from `src/sdmmc_sd.rs`, success path: the freshly
received event is OR-merged with the `unhandled` accumulator before
`process_events` runs.  Returns the merged snapshot and the loop result;
the result's `ev` field is the new `unhandled` value. -/
def handle_event (hw : HwEnv) (received unhandled : Event) (cmd : SdmmcCmd)
    (pstate : State) : Event × LoopRes :=
  let merged : Event :=
    ⟨received.sdmmc_status ||| unhandled.sdmmc_status,
     received.dma_status ||| unhandled.dma_status⟩
  (merged, process_events hw cmd pstate merged)

/-- Rank of a state along the acyclic transition order
`SendingCmd → SendingData → Busy → Idle` and
`SendingVoltageSwitch → WaitingVoltageSwitch → Idle`: every transition
computed by `stepState` either stays put or strictly decreases the rank. -/
def State.rank : State → Nat
  | .Idle => 0
  | .Busy => 1
  | .SendingData => 2
  | .WaitingVoltageSwitch => 2
  | .SendingCmd => 3
  | .SendingVoltageSwitch => 3
  | .None => 4

/-- Controller-status bits a state's match arm can consume (clear from the
working snapshot) in `process_events`. -/
def consumeMaskSdmmc : State → Nat
  | .SendingCmd => SD_CMD_ERR_MASK ||| SDMMC_INTMASK_CMD_DONE
  | .SendingData => SD_DATA_ERR_MASK
  | .Busy => SDMMC_INTMASK_DATA_OVER
  | .SendingVoltageSwitch => SD_CMD_ERR_MASK ||| SDMMC_INTMASK_VOLT_SW
  | .WaitingVoltageSwitch => SD_CMD_ERR_MASK ||| SDMMC_INTMASK_VOLT_SW
  | _ => 0

/-- DMA-status bits a state's match arm can consume in `process_events`. -/
def consumeMaskDma : State → Nat
  | .SendingData => SD_DMA_DONE_MASK
  | _ => 0

/-! ## Clock/Timing unit (`src/sdmmc.rs`). -/

/-- `get_clk_divs` from `src/sdmmc.rs`.  The returned values are cast
`as u8` in the source, hence the `% 256`.  (A request of `0` kHz would
divide by zero and panic in Rust; every claim below constrains the
request away from `0`.) -/
def get_clk_divs (freq_khz : Nat) : Nat × Nat :=
  if 40000 ≤ freq_khz then (4, 0)
  else if freq_khz = 20000 then (8, 0)
  else if freq_khz = 400 then (10, 20)
  else
    let host_div := 2 * APB_CLK_FREQ / (freq_khz * 1000)
    if 15 < host_div then
      let card_div := APB_CLK_FREQ / (2 * freq_khz * 1000)
      let card_div := if 0 < APB_CLK_FREQ % (2 * freq_khz * 1000) then card_div + 1
                      else card_div
      (2 % 256, card_div % 256)
    else
      let host_div := if 0 < 2 * APB_CLK_FREQ % (freq_khz * 1000) then host_div + 1
                      else host_div
      (host_div % 256, 0)

/-- `calc_freq` from `src/sdmmc.rs`: achieved frequency in kHz for a
divider pair (successive integer divisions, as in the source). -/
def calc_freq (host_div card_div : Nat) : Nat :=
  2 * APB_CLK_FREQ / host_div / (if card_div = 0 then 1 else card_div * 2) / 1000

/-- The divider pair one step faster than `p`: decrement the card divider
if it is in use, else the host divider.  Used to state the spec's
"within one unit-step of the optimum" law. -/
def stepFaster : Nat × Nat → Nat × Nat
  | (h, 0) => (h - 1, 0)
  | (h, c + 1) => (h, c)

/-- The clock request `f` is served within one unit-step of the optimum:
every frequency achievable by a hardware divider pair (host divider
2..16, card divider 0..255) without exceeding `f` is at most the
frequency of the pair one step faster than the pair the driver chose. -/
def within_one_step (f : Nat) : Prop :=
  ∀ h < 17, ∀ c < 256, 2 ≤ h → calc_freq h c ≤ f →
    calc_freq h c ≤ calc_freq (stepFaster (get_clk_divs f)).1 (stepFaster (get_clk_divs f)).2

/-- A frequency request the driver supports: at least 157 kHz, so that the
computed card divider fits the 8-bit register field (and the request is
nonzero). -/
def supported_freq (f : Nat) : Prop := 157 ≤ f

/-! ## Command submission (`src/sdmmc.rs`). -/

/-- Register writes `start_cmd` performs once its checks pass. -/
inductive RegWrite where
  | cmdarg (v : Nat)
  | cmdReg (c : SdmmcHwCmd)
deriving DecidableEq, Repr

/-- `start_cmd` from `src/sdmmc.rs`.  Returns the register writes issued
and the outcome (`none` = command started).  The two `cmd_taken` polling
loops are modelled by the stable `hw.cmd_taken` condition: `false` means
the start bit never clears, so a poll that is not skipped times out.
Note the source masks the card-detect and write-protect registers with
`slot as u8` (`Slot.num`), not with `Slot::bit()`. -/
def start_cmd (hw : HwEnv) (slot : Slot) (cmd : SdmmcHwCmd) (arg : Nat) :
    List RegWrite × Option Error :=
  if slot.num &&& hw.cdetect != 0 && !cmd.update_clk_reg then
    ([], some Error.NotFound)
  else if cmd.data_expected && cmd.rw && slot.num &&& hw.wrtprt != 0 then
    ([], some Error.NotFound)
  else
    let cmd1 := { cmd with use_hold_reg := true }
    if !(cmd1.volt_switch && cmd1.update_clk_reg) && !hw.cmd_taken then
      ([], some Error.Timeout)
    else
      let cmd2 := { cmd1 with card_num := slot.num, start_command := true }
      let writes := [RegWrite.cmdarg arg, RegWrite.cmdReg cmd2]
      if !hw.cmd_taken then (writes, some Error.Timeout) else (writes, none)

/-- The hardware command built by `clk_update_cmd` in `src/sdmmc.rs`. -/
def clk_update_hw_cmd (slot : Slot) (is_cmd11 : Bool) : SdmmcHwCmd :=
  { card_num := slot.num, update_clk_reg := true, wait_complete := true,
    volt_switch := is_cmd11 }

/-- `clk_update_cmd` from `src/sdmmc.rs`. -/
def clk_update_cmd (hw : HwEnv) (slot : Slot) (is_cmd11 : Bool) :
    List RegWrite × Option Error :=
  start_cmd hw slot (clk_update_hw_cmd slot is_cmd11) 0

/-- The controller's `TMOUT` register: `data_timeout` (24 bits) and
`response_timeout` (8 bits). -/
structure TmoutReg where
  data_timeout : Nat
  response_timeout : Nat
deriving DecidableEq, Repr

/-- Reset value of the `TMOUT` register (`0xffffff40`): `data_timeout`
resets to `0xffffff` and `response_timeout` to `0x40`.  A svd2rust
`write(|w| ...)` builds the register contents starting from this reset
value, so any field the closure does not set is returned to it. -/
def TMOUT_RESET : TmoutReg := ⟨0xffffff, 0x40⟩

/-- A whole-register `tmout().write` that sets only `data_timeout`. -/
def tmout_write_data_timeout (v : Nat) : TmoutReg :=
  { TMOUT_RESET with data_timeout := v }

/-- A whole-register `tmout().write` that sets only `response_timeout`. -/
def tmout_write_response_timeout (v : Nat) : TmoutReg :=
  { TMOUT_RESET with response_timeout := v }

/-- `set_card_clk` from `src/sdmmc.rs`: three clock-update commands around
the divider programming, then two successive whole-register writes to
`TMOUT`.  Returns the achieved frequency (written back through the `&mut`
argument), the sequence of `TMOUT` writes, and the final `TMOUT`
contents — the last write in the sequence. -/
def set_card_clk (hw : HwEnv) (slot : Slot) (freq_khz : Nat) :
    Except Error (Nat × List TmoutReg × TmoutReg) :=
  match (clk_update_cmd hw slot false).2 with
  | some e => .error e
  | none =>
    let divs := get_clk_divs freq_khz
    let real_freq := calc_freq divs.1 divs.2
    match (clk_update_cmd hw slot false).2 with
    | some e => .error e
    | none =>
      match (clk_update_cmd hw slot false).2 with
      | some e => .error e
      | none =>
        let w1 := tmout_write_data_timeout (min (100 * real_freq) 0xffffff)
        let w2 := tmout_write_response_timeout 255
        .ok (real_freq, [w1, w2], w2)

/-! ## `do_transaction` (`src/sdmmc_sd.rs`), up to command start. -/

/-- Externally observable steps of `do_transaction` before the event
loop. -/
inductive DtStep where
  | setCardClk (slot : Slot) (freq_khz : Nat)
  | voltSwitchStage1 (slot : Slot)
  | dmaPrepare (datalen blklen : Nat)
  | startCmd (slot : Slot) (hw_cmd : SdmmcHwCmd) (arg : Nat)
deriving DecidableEq, Repr

/-- How the submission phase of `do_transaction` ends. -/
inductive DtOutcome where
  | panic
  | fail (e : Error)
  | started (hw_cmd : SdmmcHwCmd)
deriving DecidableEq, Repr

/-- The submission phase of `do_transaction` from `src/sdmmc_sd.rs`:
program the card clock, run voltage-switch stage 1 for CMD11, compile the
hardware command (whose internal assertion can panic), validate the data
length against word alignment, prepare DMA, and start the command —
with the slot for `start_cmd` written as the constant `Slot::Slot1` in
the source.  Returns the step trace and the outcome. -/
def do_transaction (hw : HwEnv) (slot : Slot) (freq_khz : Nat)
    (cmd : SdmmcCmd) : List DtStep × DtOutcome :=
  let steps : List DtStep := [DtStep.setCardClk slot freq_khz]
  match set_card_clk hw slot freq_khz with
  | .error e => (steps, .fail e)
  | .ok _ =>
    let steps := if cmd.opcode == SD_SWITCH_VOLTAGE then
        steps ++ [DtStep.voltSwitchStage1 slot]
      else steps
    match make_hw_cmd cmd with
    | none => (steps, .panic)
    | some hw_cmd =>
      if cmd.data && decide (4 ≤ cmd.datalen) && cmd.datalen % 4 != 0 then
        (steps, .fail Error.InvalidSize)
      else
        let steps := if cmd.data then
            steps ++ [DtStep.dmaPrepare cmd.datalen cmd.blklen]
          else steps
        let steps := steps ++ [DtStep.startCmd Slot.Slot1 hw_cmd cmd.arg]
        match (start_cmd hw Slot.Slot1 hw_cmd cmd.arg).2 with
        | some e => (steps, .fail e)
        | none => (steps, .started hw_cmd)

/-! ## Interrupt handler (`src/lib.rs`, `mod inter`). -/

/-- Capacity of the static `EVENT_QUEUE` channel (`Channel<_, Event, 32>`). -/
def EVENT_QUEUE_CAPACITY : Nat := 32

/-- Observable behaviour of one `handler` invocation. -/
structure HandlerRes where
  rintsts_write : Nat
  idsts_write : Nat
  event_sent : Option Event
  panicked : Bool
  intmask_sdio_cleared : Nat
  semaphore_released : Bool
deriving DecidableEq, Repr

/-- `handler` from `src/lib.rs`: snapshot the masked status restricted to
the lower 16 bits and write it back to `rintsts`; snapshot the DMA status
and write it back to `idsts`; if either snapshot is nonzero, `try_send`
one `Event` into the 32-entry queue, `unwrap`ping the result (a full
queue panics).  Separately, service the SDIO card-interrupt sub-status
(bits 16/17): mask those interrupt-enable bits off and release one
semaphore permit.  `queue_len` is the number of events already queued. -/
def handler (mintsts idsts queue_len : Nat) : HandlerRes :=
  let pending := mintsts &&& 0xFFFF
  let dma_pending := idsts
  let event : Event := ⟨pending, dma_pending⟩
  let enq := pending != 0 || dma_pending != 0
  let sdio_pending := mintsts >>> 16 &&& 0x3
  { rintsts_write := pending
    idsts_write := dma_pending
    event_sent :=
      if enq && decide (queue_len < EVENT_QUEUE_CAPACITY) then some event else none
    panicked := enq && decide (EVENT_QUEUE_CAPACITY ≤ queue_len)
    intmask_sdio_cleared := sdio_pending
    semaphore_released := sdio_pending != 0 }

/-! ## Concrete example inputs used by scenario theorems and witnesses. -/

/-- A quiescent hardware environment: all status inputs zero, command
register free. -/
def hwEnv0 : HwEnv := {}

/-- A single-block read descriptor (CMD17, R1 response, 512-byte block). -/
def read_single_cmd : SdmmcCmd :=
  { opcode := 17, arg := 0, responce0 := 0, responce1 := 0, responce2 := 0,
    responce3 := 0, data := true, datalen := 512, buflen := 512, blklen := 512,
    flags := SCF_RSP_PRESENT ||| SCF_RSP_CRC ||| SCF_RSP_IDX ||| SCF_CMD_READ,
    err := none, timeout_ms := 1000 }

/-- A multi-block read descriptor (CMD18). -/
def read_multi_cmd : SdmmcCmd :=
  { read_single_cmd with opcode := 18, datalen := 1024, buflen := 1024 }

/-- A single-block write descriptor (CMD24): no `SCF_CMD_READ` flag. -/
def write_cmd : SdmmcCmd :=
  { read_single_cmd with
    opcode := 24
    flags := SCF_RSP_PRESENT ||| SCF_RSP_CRC ||| SCF_RSP_IDX }

/-- A descriptor whose total length is not a multiple of its block length
(512 % 100 ≠ 0) but is word-aligned. -/
def misaligned_cmd : SdmmcCmd := { read_single_cmd with blklen := 100 }

/-- A descriptor whose total length is a multiple of its block length but
not word-aligned (510 = 2 × 255, 510 % 4 ≠ 0). -/
def unaligned_word_cmd : SdmmcCmd :=
  { read_single_cmd with datalen := 510, buflen := 510, blklen := 255 }

/-- A no-data command descriptor (CMD0-style, no response). -/
def plain_cmd : SdmmcCmd :=
  { read_single_cmd with
    opcode := 0
    data := false
    datalen := 0
    buflen := 0
    blklen := 0
    flags := 0 }

/-- A plain hardware command word (wait-for-completion style, not a
register-update command). -/
def c4_plain_hw : SdmmcHwCmd := { wait_complete := true }

/-- A hardware command word with the data-expected and direction flags
set. -/
def c4_data_rw_hw : SdmmcHwCmd :=
  { wait_complete := true, data_expected := true, rw := true }

deriving instance DecidableEq for Except

/-! ## Theorems. -/

/-- Claim C3: for every Command Descriptor accepted by `make_hw_cmd`, the
produced hardware command word has: stop/abort iff opcode 12; init
sequence iff opcode 0; voltage switch iff opcode 11; wait-for-completion
iff the opcode is none of those; data-expected iff a buffer is attached;
direction flag iff a buffer is attached and the read flag is set; and
auto-stop iff a buffer is attached, the length is nonzero, and the opcode
is one of 11, 18, 20, 25. -/
theorem C3_make_hw_cmd_flags (c : SdmmcCmd) (hw : SdmmcHwCmd)
    (h : make_hw_cmd c = some hw) :
    (hw.stop_abort_cmd = true ↔ c.opcode = 12) ∧
    (hw.send_init = true ↔ c.opcode = 0) ∧
    (hw.volt_switch = true ↔ c.opcode = 11) ∧
    (hw.wait_complete = true ↔ (c.opcode ≠ 12 ∧ c.opcode ≠ 0 ∧ c.opcode ≠ 11)) ∧
    (hw.data_expected = true ↔ c.data = true) ∧
    (hw.rw = true ↔ (c.data = true ∧ c.has_flag SCF_CMD_READ = true)) ∧
    (hw.send_auto_stop = true ↔
      (c.data = true ∧ 0 < c.datalen ∧
        (c.opcode = 11 ∨ c.opcode = 18 ∨ c.opcode = 20 ∨ c.opcode = 25))) := by
  unfold make_hw_cmd at h
  split at h
  · exact absurd h (by simp)
  · injection h with h
    subst h
    refine ⟨?_, ?_, ?_, ?_, ?_, ?_, ?_⟩ <;>
      (simp [MMC_STOP_TRANSMISSION, MMC_GO_IDLE_STATE, SD_SWITCH_VOLTAGE,
         MMC_WRITE_BLOCK_MULTIPLE, MMC_READ_BLOCK_MULTIPLE,
         MMC_WRITE_DAT_UNTIL_STOP, MMC_READ_DAT_UNTIL_STOP, and_assoc];
       try tauto)

/-- Witness for C3: the flag laws evaluated on the concrete CMD18
multi-block read descriptor. -/
theorem C3_make_hw_cmd_flags_witness :
    (((make_hw_cmd read_multi_cmd).getD default).send_auto_stop = true ↔
      (read_multi_cmd.data = true ∧ 0 < read_multi_cmd.datalen ∧
        (read_multi_cmd.opcode = 11 ∨ read_multi_cmd.opcode = 18 ∨
         read_multi_cmd.opcode = 20 ∨ read_multi_cmd.opcode = 25))) ∧
    (((make_hw_cmd read_multi_cmd).getD default).data_expected = true ↔
      read_multi_cmd.data = true) := by
  have h := C3_make_hw_cmd_flags read_multi_cmd
    ((make_hw_cmd read_multi_cmd).getD default) (by decide)
  exact ⟨h.2.2.2.2.2.2, h.2.2.2.2.1⟩

/-- Claim C4 (code bug evidence): `start_cmd`'s card-detect and
write-protect rejections are ineffective because the source masks the
input registers with `slot as u8` (the discriminant 0/1) instead of the
per-slot bit.  Concretely: a plain command addressed to `Slot0` while the
card-detect register reports no card in slot 0 (bit 0 set) is started,
not rejected (`0 & x` is always 0); a data command with the direction
flag addressed to `Slot1` while slot 1's write-protect line (bit 1) is
asserted is started, not rejected (`1 & 2 = 0`); and a compiled write
descriptor (no `SCF_CMD_READ`) has `rw = false`, so even a fully asserted
write-protect register does not reject it. -/
theorem C4_card_checks_ineffective :
    ((start_cmd { hwEnv0 with cdetect := 1 } Slot.Slot0 c4_plain_hw 0).2 = none ∧
     (start_cmd { hwEnv0 with cdetect := 1 } Slot.Slot0 c4_plain_hw 0).1 ≠ []) ∧
    ((start_cmd { hwEnv0 with wrtprt := 2 } Slot.Slot1 c4_data_rw_hw 0).2 = none ∧
     (start_cmd { hwEnv0 with wrtprt := 2 } Slot.Slot1 c4_data_rw_hw 0).1 ≠ []) ∧
    ((make_hw_cmd write_cmd).getD default).rw = false ∧
    (start_cmd { hwEnv0 with wrtprt := U32_MAX } Slot.Slot1
        ((make_hw_cmd write_cmd).getD default) 0).2 = none := by
  decide

/-- Claim C7 (code bug evidence): after `set_card_clk` at 20000 kHz
(achieved frequency 20000 kHz) the `TMOUT` register does not hold the
computed data timeout `min (100 * 20000) 0xffffff = 2000000`: the second
whole-register write (`response_timeout := 255`) rebuilds the register
from its reset value, returning `data_timeout` to `0xffffff`. -/
theorem C7_data_timeout_clobbered :
    set_card_clk hwEnv0 Slot.Slot1 20000 =
      Except.ok (20000,
        [tmout_write_data_timeout (min (100 * 20000) 0xffffff),
         tmout_write_response_timeout 255],
        tmout_write_response_timeout 255) ∧
    (tmout_write_response_timeout 255).data_timeout = 0xffffff ∧
    (tmout_write_response_timeout 255).data_timeout ≠ min (100 * 20000) 0xffffff ∧
    (tmout_write_response_timeout 255).response_timeout = 255 := by
  decide

/-- Claim C8: on every invocation `handler` writes the lower-16-bit
masked status snapshot back to `rintsts`, writes the DMA status snapshot
back to `idsts`, and enqueues exactly one Event carrying the two
snapshots iff at least one snapshot is nonzero — panicking instead of
dropping the event when the 32-entry queue is full. -/
theorem C8_handler_snapshot_and_enqueue (mintsts idsts queue_len : Nat) :
    (handler mintsts idsts queue_len).rintsts_write = mintsts &&& 0xFFFF ∧
    (handler mintsts idsts queue_len).idsts_write = idsts ∧
    (¬(mintsts &&& 0xFFFF = 0 ∧ idsts = 0) → queue_len < 32 →
      (handler mintsts idsts queue_len).event_sent =
          some ⟨mintsts &&& 0xFFFF, idsts⟩ ∧
      (handler mintsts idsts queue_len).panicked = false) ∧
    ((mintsts &&& 0xFFFF = 0 ∧ idsts = 0) →
      (handler mintsts idsts queue_len).event_sent = none ∧
      (handler mintsts idsts queue_len).panicked = false) ∧
    (¬(mintsts &&& 0xFFFF = 0 ∧ idsts = 0) → 32 ≤ queue_len →
      (handler mintsts idsts queue_len).event_sent = none ∧
      (handler mintsts idsts queue_len).panicked = true) := by
  unfold handler EVENT_QUEUE_CAPACITY
  refine ⟨rfl, rfl, ?_, ?_, ?_⟩
  · intro h hq
    rcases Decidable.not_and_iff_or_not.mp h with h0 | h0 <;> simp_all
  · intro h
    simp_all
  · intro h hq
    rcases Decidable.not_and_iff_or_not.mp h with h0 | h0 <;> simp_all

/-- Witness for C8: a response-timeout status with an empty queue is
acknowledged and enqueued as one event. -/
theorem C8_handler_snapshot_and_enqueue_witness :
    (handler 0x104 0 0).event_sent = some ⟨0x104, 0⟩ ∧
    (handler 0x104 0 0).panicked = false := by
  have h := (C8_handler_snapshot_and_enqueue 0x104 0 0).2.2.1 (by decide) (by decide)
  exact ⟨by rw [h.1]; decide, h.2⟩

/-- Claim C2 (counterexample): an Event carrying only the
response-timeout bit, processed first in `SendingCmd` for a descriptor
with a data phase, immediately records `Timeout` but leaves the state
machine in `SendingCmd` — it does not transition to `Idle` (that needs
the command-done bit as well). -/
theorem C2_rto_alone_stays_in_sending_cmd :
    (process_events hwEnv0 read_single_cmd State.SendingCmd
        ⟨SDMMC_INTMASK_RTO, 0⟩).cmd.err = some Error.Timeout ∧
    (process_events hwEnv0 read_single_cmd State.SendingCmd
        ⟨SDMMC_INTMASK_RTO, 0⟩).state = State.SendingCmd ∧
    (process_events hwEnv0 read_single_cmd State.SendingCmd
        ⟨SDMMC_INTMASK_RTO, 0⟩).state ≠ State.Idle := by
  decide

/-- Claim C5 (counterexample): for a descriptor whose total length is not
a multiple of its block length (512, block 100), `do_transaction` does
not return `InvalidSize` — it panics at `make_hw_cmd`'s assertion — and
the clock-programming step (a sequence of hardware register writes) has
already run before that rejection. -/
theorem C5_blklen_mismatch_is_panic_not_invalid_size :
    (do_transaction hwEnv0 Slot.Slot1 20000 misaligned_cmd).2 ≠
        DtOutcome.fail Error.InvalidSize ∧
    (do_transaction hwEnv0 Slot.Slot1 20000 misaligned_cmd).2 = DtOutcome.panic ∧
    DtStep.setCardClk Slot.Slot1 20000 ∈
        (do_transaction hwEnv0 Slot.Slot1 20000 misaligned_cmd).1 := by
  decide

/-- Claim C6 (counterexample): the request 80000 kHz is in the supported
high-speed band and receives the fixed pair (4,0), achieving 40000 kHz;
but (2,0) achieves exactly 80000 kHz without exceeding the request, which
is more than one divider step better — the pair one step faster than
(4,0) only reaches 53333 kHz — so the round trip is not within one
unit-step of the optimum. -/
theorem C6_highspeed_band_not_within_one_step :
    supported_freq 80000 ∧
    get_clk_divs 80000 = (4, 0) ∧
    calc_freq 4 0 ≤ 80000 ∧
    calc_freq 2 0 = 80000 ∧
    calc_freq (stepFaster (get_clk_divs 80000)).1
        (stepFaster (get_clk_divs 80000)).2 = 53333 ∧
    ¬ within_one_step 80000 := by
  refine ⟨by unfold supported_freq; decide, by decide, by decide, by decide,
    by decide, fun hws => ?_⟩
  have h := hws 2 (by decide) 0 (by decide) (by decide) (by decide)
  exact absurd h (by decide)

/-- Claim C9: every `start_cmd` step emitted by `do_transaction` targets
the hard-coded `Slot::Slot1`, while the clock-programming and
voltage-switch-stage-1 steps use the configured slot. -/
theorem C9_start_cmd_slot_hardcoded (hw : HwEnv) (slot : Slot)
    (freq_khz : Nat) (cmd : SdmmcCmd) :
    (∀ s hc a, DtStep.startCmd s hc a ∈ (do_transaction hw slot freq_khz cmd).1 →
       s = Slot.Slot1) ∧
    (∀ s f, DtStep.setCardClk s f ∈ (do_transaction hw slot freq_khz cmd).1 →
       s = slot ∧ f = freq_khz) ∧
    (∀ s, DtStep.voltSwitchStage1 s ∈ (do_transaction hw slot freq_khz cmd).1 →
       s = slot) := by
  refine ⟨fun s hc a hmem => ?_, fun s f hmem => ?_, fun s hmem => ?_⟩ <;>
    (simp only [do_transaction] at hmem
     repeat' split at hmem
     all_goals simp_all)

/-- Witness for C9: on the concrete no-data submission the `setCardClk`
step carries the configured slot and frequency. -/
theorem C9_start_cmd_slot_hardcoded_witness :
    Slot.Slot0 = Slot.Slot0 ∧ (20000 : Nat) = 20000 := by
  exact (C9_start_cmd_slot_hardcoded hwEnv0 Slot.Slot0 20000 plain_cmd).2.1
    Slot.Slot0 20000 (by decide)

/-- Each executed match arm of `process_events` either keeps the state or
strictly decreases its rank along the acyclic transition order (and never
produces `State.None`). -/
theorem stepState_next_rank (hw : HwEnv) (orig : Event) (s : State)
    (cmd : SdmmcCmd) (ev : Event) (hs : s ≠ State.None) :
    (stepState hw orig s cmd ev).next = s ∨
      ((stepState hw orig s cmd ev).next.rank < s.rank ∧
       (stepState hw orig s cmd ev).next ≠ State.None) := by
  cases s
  case None => exact absurd rfl hs
  all_goals
    simp only [stepState]
    repeat' split
    all_goals simp [State.rank]

/-- With fuel at least `rank + 2`, the fixed-point loop of
`process_events` reaches its fixed point. -/
theorem event_loop_complete (hw : HwEnv) (orig : Event) :
    ∀ n state next cmd ev vis effs, next ≠ State.None → next.rank + 2 ≤ n →
      (event_loop hw orig n state next cmd ev vis effs).complete = true := by
  intro n
  induction n with
  | zero => intro state next cmd ev vis effs hne hr; omega
  | succ n ih =>
    intro state next cmd ev vis effs hne hr
    rw [event_loop]
    split
    · rfl
    · rcases stepState_next_rank hw orig next cmd ev hne with heq | ⟨hlt, hne2⟩
      · obtain ⟨m, rfl⟩ : ∃ m, n = m + 1 := ⟨n - 1, by omega⟩
        rw [event_loop, if_pos heq]
      · exact ih next _ _ _ _ _ hne2 (by omega)

/-- Claim C10: the inner fixed-point loop of `process_events` terminates:
every iteration either returns the current state (ending the loop) or
strictly advances along the acyclic order SendingCmd → SendingData →
Busy → Idle / SendingVoltageSwitch → WaitingVoltageSwitch → Idle
(measured by `State.rank`), so the loop reaches its fixed point within
the fixed fuel bound for every starting state and Event snapshot. -/
theorem C10_process_events_terminates :
    (∀ hw orig s cmd ev, s ≠ State.None →
       ((stepState hw orig s cmd ev).next = s ∨
        (stepState hw orig s cmd ev).next.rank < s.rank)) ∧
    (∀ hw cmd pstate ev, pstate ≠ State.None →
       (process_events hw cmd pstate ev).complete = true) := by
  constructor
  · intro hw orig s cmd ev hs
    rcases stepState_next_rank hw orig s cmd ev hs with h | ⟨h, _⟩
    · exact Or.inl h
    · exact Or.inr h
  · intro hw cmd pstate ev hp
    have hrank : pstate.rank ≤ 3 := by
      cases pstate
      case None => exact absurd rfl hp
      all_goals decide
    exact event_loop_complete hw ev 6 State.None pstate cmd ev [] [] hp (by omega)

/-- Witness for C10: the termination facts evaluated at a concrete state
and snapshot. -/
theorem C10_process_events_terminates_witness :
    ((stepState hwEnv0 ⟨0, 0⟩ State.SendingCmd read_single_cmd ⟨0, 0⟩).next =
        State.SendingCmd ∨
     (stepState hwEnv0 ⟨0, 0⟩ State.SendingCmd read_single_cmd ⟨0, 0⟩).next.rank <
        State.SendingCmd.rank) ∧
    (process_events hwEnv0 read_single_cmd State.SendingCmd ⟨0, 0⟩).complete = true :=
  ⟨C10_process_events_terminates.1 hwEnv0 ⟨0, 0⟩ State.SendingCmd read_single_cmd
      ⟨0, 0⟩ (by decide),
   C10_process_events_terminates.2 hwEnv0 read_single_cmd State.SendingCmd
      ⟨0, 0⟩ (by decide)⟩

/-- If some bit of a sub-mask is set, some bit of the mask is set. -/
theorem and_submask_ne_zero (a m sub : Nat) (hsub : sub &&& m = sub)
    (h : a &&& sub ≠ 0) : a &&& m ≠ 0 := by
  intro hm
  apply h
  calc a &&& sub = a &&& (sub &&& m) := by rw [hsub]
    _ = a &&& (m &&& sub) := by rw [Nat.and_comm sub m]
    _ = a &&& m &&& sub := by rw [Nat.and_assoc]
    _ = 0 := by rw [hm, Nat.zero_and]

/-- Clearing a `u32` mask does not disturb a disjoint mask: masking with
the complement of `m` commutes away under a mask `d` with `m &&& d = 0`
(for `d` within 32 bits). -/
theorem and_not_mask_disjoint (a m d : Nat) (hdm : m &&& d = 0)
    (hd : d < 2 ^ 32) :
    a &&& (m ^^^ U32_MAX) &&& d = a &&& d := by
  apply Nat.eq_of_testBit_eq
  intro i
  have hmd : ¬(m.testBit i = true ∧ d.testBit i = true) := by
    intro hpair
    have hbit := congrArg (fun x => x.testBit i) hdm
    simp [Nat.testBit_and, hpair.1, hpair.2] at hbit
  rcases Nat.lt_or_ge i 32 with hi | hi
  · have hmax : U32_MAX.testBit i = true := by
      have h32 : U32_MAX = 2 ^ 32 - 1 := by decide
      rw [h32, Nat.testBit_two_pow_sub_one]
      simpa using hi
    by_cases hdi : d.testBit i = true
    · have hmi : m.testBit i = false := by
        rcases Bool.eq_false_or_eq_true (m.testBit i) with hb | hb
        · exact absurd ⟨hb, hdi⟩ hmd
        · exact hb
      simp [Nat.testBit_and, Nat.testBit_xor, hmax, hmi, hdi]
    · simp only [Bool.not_eq_true] at hdi
      simp [Nat.testBit_and, hdi]
  · have hdi : d.testBit i = false :=
      Nat.testBit_eq_false_of_lt
        (lt_of_lt_of_le hd (Nat.pow_le_pow_right (by omega) hi))
    simp [Nat.testBit_and, hdi]

/-- A response-timeout bit in the classified status always records
`Timeout` (the first classification branch). -/
theorem process_command_response_rto (hw : HwEnv) (status : Nat)
    (cmd : SdmmcCmd) (h : status &&& SDMMC_INTMASK_RTO ≠ 0) :
    (process_command_response hw status cmd).1.err = some Error.Timeout := by
  unfold process_command_response
  have hb : (status &&& SDMMC_INTMASK_RTO != 0) = true := by simpa using h
  simp only [hb]
  repeat' split
  all_goals simp_all

/-- `process_command_response` never clears a recorded error. -/
theorem process_command_response_keeps_err (hw : HwEnv) (status : Nat)
    (cmd : SdmmcCmd) (h : cmd.err.isSome = true) :
    (process_command_response hw status cmd).1.err.isSome = true := by
  unfold process_command_response
  repeat'
    first
      | split
      | simp_all

/-- One unfolding of the fixed-point loop when it has not yet reached its
fixed point. -/
theorem event_loop_succ_ne (hw : HwEnv) (orig : Event) (n : Nat)
    (state next : State) (cmd : SdmmcCmd) (ev : Event) (vis : List State)
    (effs : List Eff) (h : next ≠ state) :
    event_loop hw orig (n + 1) state next cmd ev vis effs =
      event_loop hw orig n next (stepState hw orig next cmd ev).next
        (stepState hw orig next cmd ev).cmd (stepState hw orig next cmd ev).ev
        (vis ++ [next]) (effs ++ (stepState hw orig next cmd ev).effs) := by
  rw [event_loop, if_neg h]

/-- The fixed-point loop returns once the state repeats. -/
theorem event_loop_succ_eq (hw : HwEnv) (orig : Event) (n : Nat)
    (state : State) (cmd : SdmmcCmd) (ev : Event) (vis : List State)
    (effs : List Eff) :
    event_loop hw orig (n + 1) state state cmd ev vis effs =
      ⟨state, cmd, ev, vis, effs, true⟩ := by
  rw [event_loop, if_pos rfl]

/-- First unfolding of `process_events` for a real starting state. -/
theorem process_events_step (hw : HwEnv) (cmd : SdmmcCmd) (pstate : State)
    (ev : Event) (h : pstate ≠ State.None) :
    process_events hw cmd pstate ev =
      event_loop hw ev 5 pstate (stepState hw ev pstate cmd ev).next
        (stepState hw ev pstate cmd ev).cmd (stepState hw ev pstate cmd ev).ev
        [pstate] (stepState hw ev pstate cmd ev).effs := by
  unfold process_events
  rw [show (6 : Nat) = 5 + 1 from rfl, event_loop_succ_ne hw ev 5 _ _ _ _ _ _ h]
  simp

/-- In `SendingCmd` with a command-error bit in the working snapshot and
the response-timeout bit in the classified status, one step records
`Timeout`; it moves to `Idle` exactly when the command-done bit is also
in the working snapshot (after the error mask is cleared), else stays in
`SendingCmd`. -/
theorem stepState_sending_cmd_rto (hw : HwEnv) (orig : Event)
    (cmd : SdmmcCmd) (ev : Event)
    (hrto_orig : orig.sdmmc_status &&& SDMMC_INTMASK_RTO ≠ 0)
    (hcerr : ev.sdmmc_status &&& SD_CMD_ERR_MASK ≠ 0) :
    (stepState hw orig State.SendingCmd cmd ev).cmd.err = some Error.Timeout ∧
    ((stepState hw orig State.SendingCmd cmd ev).next = State.Idle ∨
     (stepState hw orig State.SendingCmd cmd ev).next = State.SendingCmd) ∧
    ((stepState hw orig State.SendingCmd cmd ev).next = State.Idle ↔
      ev.sdmmc_status &&& (SD_CMD_ERR_MASK ^^^ U32_MAX) &&&
        SDMMC_INTMASK_CMD_DONE ≠ 0) := by
  have hrtoAll : ∀ c, (process_command_response hw orig.sdmmc_status c).1.err =
      some Error.Timeout :=
    fun c => process_command_response_rto hw orig.sdmmc_status c hrto_orig
  have hb1 : (ev.sdmmc_status &&& SD_CMD_ERR_MASK != 0) = true := by
    simpa using hcerr
  by_cases hb2 : ev.sdmmc_status &&& (SD_CMD_ERR_MASK ^^^ U32_MAX) &&&
      SDMMC_INTMASK_CMD_DONE = 0
  · simp [stepState, mask_check_and_clear, hb1, hb2, hrtoAll]
  · simp [stepState, mask_check_and_clear, hb1, hb2, hrtoAll]

/-- In `SendingCmd` with an error already recorded, one step can only
stay in `SendingCmd` or move to `Idle` — never to `SendingData`. -/
theorem stepState_sending_cmd_err_some (hw : HwEnv) (orig : Event)
    (cmd : SdmmcCmd) (ev : Event) (h : cmd.err.isSome = true) :
    (stepState hw orig State.SendingCmd cmd ev).next = State.Idle ∨
    (stepState hw orig State.SendingCmd cmd ev).next = State.SendingCmd := by
  have hr1 : ∀ b : Bool,
      ((if b then process_command_response hw orig.sdmmc_status cmd
        else (cmd, [])).1).err.isSome = true := by
    intro b
    cases b
    · simpa using h
    · simpa using process_command_response_keeps_err hw orig.sdmmc_status cmd h
  have hr2 : ∀ b : Bool,
      (process_command_response hw orig.sdmmc_status
        ((if b then process_command_response hw orig.sdmmc_status cmd
          else (cmd, [])).1)).1.err.isSome = true :=
    fun b => process_command_response_keeps_err hw orig.sdmmc_status _ (hr1 b)
  by_cases hb2 : ev.sdmmc_status &&& (SD_CMD_ERR_MASK ^^^ U32_MAX) &&&
      SDMMC_INTMASK_CMD_DONE = 0
  · simp [stepState, mask_check_and_clear, hb2]
  · by_cases hb1 : ev.sdmmc_status &&& SD_CMD_ERR_MASK = 0
    · have := hr2 false
      simp_all [stepState, mask_check_and_clear, hb1, hb2]
    · have := hr2 true
      simp_all [stepState, mask_check_and_clear, hb1, hb2]

/-- Running `process_events` from `SendingCmd` with an error already
recorded visits at most `SendingCmd` and `Idle`. -/
theorem process_events_sending_cmd_err_visited (hw : HwEnv) (cmd : SdmmcCmd)
    (ev : Event) (h : cmd.err.isSome = true) :
    (process_events hw cmd State.SendingCmd ev).visited = [State.SendingCmd] ∨
    (process_events hw cmd State.SendingCmd ev).visited =
      [State.SendingCmd, State.Idle] := by
  rw [process_events_step hw cmd State.SendingCmd ev (by decide)]
  rcases stepState_sending_cmd_err_some hw ev cmd ev h with hnext | hnext
  · rw [hnext, event_loop_succ_ne hw ev 4 State.SendingCmd State.Idle _ _ _ _
      (by decide)]
    rw [show stepState hw ev State.Idle
        (stepState hw ev State.SendingCmd cmd ev).cmd
        (stepState hw ev State.SendingCmd cmd ev).ev =
        ⟨State.Idle, (stepState hw ev State.SendingCmd cmd ev).cmd,
         (stepState hw ev State.SendingCmd cmd ev).ev, []⟩ from rfl]
    rw [event_loop_succ_eq]
    exact Or.inr rfl
  · rw [hnext, event_loop_succ_eq]
    exact Or.inl rfl

/-- Claim C2 (amended): if the first Event processed in `SendingCmd`
carries the response-timeout bit, the command error is immediately
classified `Timeout` and the machine never enters `SendingData` (also in
any later run, since a recorded error blocks that transition); it
transitions to `Idle` in the same run exactly when the Event also
carries the command-done bit, and otherwise remains in `SendingCmd`. -/
theorem C2_response_timeout_amended (hw : HwEnv) (cmd : SdmmcCmd) (ev : Event)
    (_hdata : cmd.data = true)
    (hrto : ev.sdmmc_status &&& SDMMC_INTMASK_RTO ≠ 0) :
    (process_events hw cmd State.SendingCmd ev).cmd.err = some Error.Timeout ∧
    State.SendingData ∉ (process_events hw cmd State.SendingCmd ev).visited ∧
    (ev.sdmmc_status &&& SDMMC_INTMASK_CMD_DONE ≠ 0 →
      (process_events hw cmd State.SendingCmd ev).state = State.Idle) ∧
    (ev.sdmmc_status &&& SDMMC_INTMASK_CMD_DONE = 0 →
      (process_events hw cmd State.SendingCmd ev).state = State.SendingCmd) ∧
    (∀ hw2 cmd2 ev2, cmd2.err.isSome = true →
      State.SendingData ∉ (process_events hw2 cmd2 State.SendingCmd ev2).visited) := by
  have hcerr := and_submask_ne_zero ev.sdmmc_status SD_CMD_ERR_MASK
    SDMMC_INTMASK_RTO (by decide) hrto
  have hstep := stepState_sending_cmd_rto hw ev cmd ev hrto hcerr
  have hdisj := and_not_mask_disjoint ev.sdmmc_status SD_CMD_ERR_MASK
    SDMMC_INTMASK_CMD_DONE (by decide) (by decide)
  have hlast : ∀ hw2 cmd2 ev2, cmd2.err.isSome = true →
      State.SendingData ∉ (process_events hw2 cmd2 State.SendingCmd ev2).visited := by
    intro hw2 cmd2 ev2 herr
    rcases process_events_sending_cmd_err_visited hw2 cmd2 ev2 herr with hv | hv <;>
      simp [hv]
  rw [process_events_step hw cmd State.SendingCmd ev (by decide)]
  rcases hstep.2.1 with hnext | hnext
  · rw [hnext, event_loop_succ_ne hw ev 4 State.SendingCmd State.Idle _ _ _ _
      (by decide)]
    rw [show stepState hw ev State.Idle
        (stepState hw ev State.SendingCmd cmd ev).cmd
        (stepState hw ev State.SendingCmd cmd ev).ev =
        ⟨State.Idle, (stepState hw ev State.SendingCmd cmd ev).cmd,
         (stepState hw ev State.SendingCmd cmd ev).ev, []⟩ from rfl]
    rw [event_loop_succ_eq]
    refine ⟨hstep.1, by simp, fun _ => rfl, fun h0 => ?_, hlast⟩
    have := (hstep.2.2.mp hnext)
    rw [hdisj] at this
    exact absurd h0 this
  · rw [hnext, event_loop_succ_eq]
    refine ⟨hstep.1, by simp, fun hdone => ?_, fun _ => rfl, hlast⟩
    have hni : (stepState hw ev State.SendingCmd cmd ev).next ≠ State.Idle := by
      rw [hnext]
      decide
    have := fun hbit => hni (hstep.2.2.mpr hbit)
    rw [hdisj] at this
    exact absurd hdone (by simpa using this)

/-- Witness for C2 (amended): the concrete response-timeout-plus-done
Event drives the machine to `Idle` with a `Timeout` error and no
`SendingData` visit. -/
theorem C2_response_timeout_amended_witness :
    (process_events hwEnv0 read_single_cmd State.SendingCmd
        ⟨SDMMC_INTMASK_RTO ||| SDMMC_INTMASK_CMD_DONE, 0⟩).cmd.err =
      some Error.Timeout ∧
    State.SendingData ∉ (process_events hwEnv0 read_single_cmd State.SendingCmd
        ⟨SDMMC_INTMASK_RTO ||| SDMMC_INTMASK_CMD_DONE, 0⟩).visited ∧
    (process_events hwEnv0 read_single_cmd State.SendingCmd
        ⟨SDMMC_INTMASK_RTO ||| SDMMC_INTMASK_CMD_DONE, 0⟩).state = State.Idle := by
  have h := C2_response_timeout_amended hwEnv0 read_single_cmd
    ⟨SDMMC_INTMASK_RTO ||| SDMMC_INTMASK_CMD_DONE, 0⟩ (by decide) (by decide)
  exact ⟨h.1, h.2.1, h.2.2.1 (by decide)⟩

/-- Bit view of clearing a `u32` mask. -/
theorem testBit_and_not_u32 (a m i : Nat) (hi : i < 32) :
    (a &&& (m ^^^ U32_MAX)).testBit i = (a.testBit i && !(m.testBit i)) := by
  have hmax : U32_MAX.testBit i = true := by
    have h32 : U32_MAX = 2 ^ 32 - 1 := by decide
    rw [h32, Nat.testBit_two_pow_sub_one]
    simpa using hi
  simp [Nat.testBit_and, Nat.testBit_xor, hmax]

/-- One match arm of `process_events` clears controller-status bits only
inside its consume mask: a bit of the working snapshot is preserved,
was not set, or lies in `consumeMaskSdmmc` of the executed state. -/
theorem stepState_sdmmc_bits (hw : HwEnv) (orig : Event) (s : State)
    (cmd : SdmmcCmd) (ev : Event) (i : Nat) (hi : i < 32) :
    (stepState hw orig s cmd ev).ev.sdmmc_status.testBit i = true ∨
    ev.sdmmc_status.testBit i = false ∨
    (consumeMaskSdmmc s).testBit i = true := by
  have hbool2 : ∀ x a b : Bool,
      (x && !a && !b) = true ∨ x = false ∨ (a || b) = true := by decide
  have hbool1 : ∀ x a : Bool, (x && !a) = true ∨ x = false ∨ a = true := by
    decide
  have hid : ∀ x : Bool, x = true ∨ x = false ∨ False := by decide
  cases s
  case None =>
    rcases hid (ev.sdmmc_status.testBit i) with he | he | he
    · exact Or.inl he
    · exact Or.inr (Or.inl he)
    · exact he.elim
  case Idle =>
    rcases hid (ev.sdmmc_status.testBit i) with he | he | he
    · exact Or.inl he
    · exact Or.inr (Or.inl he)
    · exact he.elim
  case SendingCmd =>
    have hrw : (stepState hw orig State.SendingCmd cmd ev).ev.sdmmc_status =
        ev.sdmmc_status &&& (SD_CMD_ERR_MASK ^^^ U32_MAX) &&&
          (SDMMC_INTMASK_CMD_DONE ^^^ U32_MAX) := by
      simp only [stepState, mask_check_and_clear]
      split <;> rfl
    rw [hrw, testBit_and_not_u32 _ _ i hi, testBit_and_not_u32 _ _ i hi]
    simp only [consumeMaskSdmmc, Nat.testBit_or]
    exact hbool2 _ _ _
  case SendingData =>
    have hrw : (stepState hw orig State.SendingData cmd ev).ev.sdmmc_status =
        ev.sdmmc_status &&& (SD_DATA_ERR_MASK ^^^ U32_MAX) := rfl
    rw [hrw, testBit_and_not_u32 _ _ i hi]
    simp only [consumeMaskSdmmc]
    exact hbool1 _ _
  case Busy =>
    have hrw : (stepState hw orig State.Busy cmd ev).ev.sdmmc_status =
        ev.sdmmc_status &&& (SDMMC_INTMASK_DATA_OVER ^^^ U32_MAX) := by
      simp only [stepState, mask_check_and_clear]
      split <;> rfl
    rw [hrw, testBit_and_not_u32 _ _ i hi]
    simp only [consumeMaskSdmmc]
    exact hbool1 _ _
  case SendingVoltageSwitch =>
    have hrw : (stepState hw orig State.SendingVoltageSwitch cmd ev).ev.sdmmc_status =
        ev.sdmmc_status &&& (SD_CMD_ERR_MASK ^^^ U32_MAX) &&&
          (SDMMC_INTMASK_VOLT_SW ^^^ U32_MAX) := by
      simp only [stepState, mask_check_and_clear]
      split <;> rfl
    rw [hrw, testBit_and_not_u32 _ _ i hi, testBit_and_not_u32 _ _ i hi]
    simp only [consumeMaskSdmmc, Nat.testBit_or]
    exact hbool2 _ _ _
  case WaitingVoltageSwitch =>
    have hrw : (stepState hw orig State.WaitingVoltageSwitch cmd ev).ev.sdmmc_status =
        ev.sdmmc_status &&& (SD_CMD_ERR_MASK ^^^ U32_MAX) &&&
          (SDMMC_INTMASK_VOLT_SW ^^^ U32_MAX) := by
      simp only [stepState, mask_check_and_clear]
      split <;> rfl
    rw [hrw, testBit_and_not_u32 _ _ i hi, testBit_and_not_u32 _ _ i hi]
    simp only [consumeMaskSdmmc, Nat.testBit_or]
    exact hbool2 _ _ _

/-- One match arm of `process_events` clears DMA-status bits only inside
its DMA consume mask. -/
theorem stepState_dma_bits (hw : HwEnv) (orig : Event) (s : State)
    (cmd : SdmmcCmd) (ev : Event) (i : Nat) (hi : i < 32) :
    (stepState hw orig s cmd ev).ev.dma_status.testBit i = true ∨
    ev.dma_status.testBit i = false ∨
    (consumeMaskDma s).testBit i = true := by
  have hbool1 : ∀ x a : Bool, (x && !a) = true ∨ x = false ∨ a = true := by
    decide
  have hid : ∀ x : Bool, x = true ∨ x = false ∨ False := by decide
  have hkeep : ∀ t : State, (stepState hw orig t cmd ev).ev.dma_status =
        ev.dma_status →
      ((stepState hw orig t cmd ev).ev.dma_status.testBit i = true ∨
       ev.dma_status.testBit i = false ∨ (consumeMaskDma t).testBit i = true) := by
    intro t ht
    rw [ht]
    rcases hid (ev.dma_status.testBit i) with he | he | he
    · exact Or.inl he
    · exact Or.inr (Or.inl he)
    · exact he.elim
  cases s
  case None => exact hkeep State.None rfl
  case Idle => exact hkeep State.Idle rfl
  case SendingCmd =>
    refine hkeep State.SendingCmd ?_
    simp only [stepState, mask_check_and_clear]
    split <;> rfl
  case Busy =>
    refine hkeep State.Busy ?_
    simp only [stepState, mask_check_and_clear]
    split <;> rfl
  case SendingVoltageSwitch =>
    refine hkeep State.SendingVoltageSwitch ?_
    simp only [stepState, mask_check_and_clear]
    split <;> rfl
  case WaitingVoltageSwitch =>
    refine hkeep State.WaitingVoltageSwitch ?_
    simp only [stepState, mask_check_and_clear]
    split <;> rfl
  case SendingData =>
    have hrw : (stepState hw orig State.SendingData cmd ev).ev.dma_status =
        ev.dma_status &&& (SD_DMA_DONE_MASK ^^^ U32_MAX) := rfl
    rw [hrw, testBit_and_not_u32 _ _ i hi]
    simp only [consumeMaskDma]
    exact hbool1 _ _

/-- The fixed-point loop only extends the visited-state list. -/
theorem event_loop_visited_mono (hw : HwEnv) (orig : Event) :
    ∀ n state next cmd ev vis effs x, x ∈ vis →
      x ∈ (event_loop hw orig n state next cmd ev vis effs).visited := by
  intro n
  induction n with
  | zero => intro state next cmd ev vis effs x hx; exact hx
  | succ n ih =>
    intro state next cmd ev vis effs x hx
    rw [event_loop]
    split
    · exact hx
    · exact ih _ _ _ _ _ _ x (List.mem_append_left _ hx)

/-- Controller-status conservation through the fixed-point loop: a bit of
the working snapshot either survives to the final snapshot or lies in the
consume mask of some visited state. -/
theorem event_loop_sdmmc_conserve (hw : HwEnv) (orig : Event) :
    ∀ n state next cmd ev vis effs i, i < 32 →
      ev.sdmmc_status.testBit i = true →
      ((event_loop hw orig n state next cmd ev vis effs).ev.sdmmc_status.testBit i
          = true ∨
       ∃ s, s ∈ (event_loop hw orig n state next cmd ev vis effs).visited ∧
         (consumeMaskSdmmc s).testBit i = true) := by
  intro n
  induction n with
  | zero => intro state next cmd ev vis effs i hi hb; exact Or.inl hb
  | succ n ih =>
    intro state next cmd ev vis effs i hi hb
    rw [event_loop]
    split
    · exact Or.inl hb
    · rcases stepState_sdmmc_bits hw orig next cmd ev i hi with hkeep | hzero | hmask
      · exact ih _ _ _ _ _ _ i hi hkeep
      · rw [hb] at hzero; exact absurd hzero (by decide)
      · exact Or.inr ⟨next,
          event_loop_visited_mono hw orig n _ _ _ _ _ _ next
            (List.mem_append_right _ (List.mem_singleton_self next)), hmask⟩

/-- DMA-status conservation through the fixed-point loop. -/
theorem event_loop_dma_conserve (hw : HwEnv) (orig : Event) :
    ∀ n state next cmd ev vis effs i, i < 32 →
      ev.dma_status.testBit i = true →
      ((event_loop hw orig n state next cmd ev vis effs).ev.dma_status.testBit i
          = true ∨
       ∃ s, s ∈ (event_loop hw orig n state next cmd ev vis effs).visited ∧
         (consumeMaskDma s).testBit i = true) := by
  intro n
  induction n with
  | zero => intro state next cmd ev vis effs i hi hb; exact Or.inl hb
  | succ n ih =>
    intro state next cmd ev vis effs i hi hb
    rw [event_loop]
    split
    · exact Or.inl hb
    · rcases stepState_dma_bits hw orig next cmd ev i hi with hkeep | hzero | hmask
      · exact ih _ _ _ _ _ _ i hi hkeep
      · rw [hb] at hzero; exact absurd hzero (by decide)
      · exact Or.inr ⟨next,
          event_loop_visited_mono hw orig n _ _ _ _ _ _ next
            (List.mem_append_right _ (List.mem_singleton_self next)), hmask⟩

/-- Claim C1: no status bit is silently discarded.  (i) Every controller
or DMA status bit of the merged working snapshot either survives into the
final snapshot — which `process_events` stores back into the `unhandled`
accumulator — or lies in the consume mask of a state whose match arm
executed.  (ii) `handle_event` OR-merges the `unhandled` accumulator into
the next Event's snapshot before processing, so every accumulated bit is
presented again.  (iii) In particular an Event carrying both a
command-error bit (RTO) and a data-error bit (DTO) processed in
`SendingCmd` retains the data-error bit in the accumulator, and a
`SendingData` run with that bit in its snapshot consumes it and records
the data error. -/
theorem C1_unhandled_bits_carried_forward :
    (∀ hw cmd pstate ev i, i < 32 → ev.sdmmc_status.testBit i = true →
      ((process_events hw cmd pstate ev).ev.sdmmc_status.testBit i = true ∨
       ∃ s, s ∈ (process_events hw cmd pstate ev).visited ∧
         (consumeMaskSdmmc s).testBit i = true)) ∧
    (∀ hw cmd pstate ev i, i < 32 → ev.dma_status.testBit i = true →
      ((process_events hw cmd pstate ev).ev.dma_status.testBit i = true ∨
       ∃ s, s ∈ (process_events hw cmd pstate ev).visited ∧
         (consumeMaskDma s).testBit i = true)) ∧
    (∀ hw received unhandled cmd pstate i,
      unhandled.sdmmc_status.testBit i = true →
      (handle_event hw received unhandled cmd pstate).1.sdmmc_status.testBit i
        = true) ∧
    (∀ hw received unhandled cmd pstate i,
      unhandled.dma_status.testBit i = true →
      (handle_event hw received unhandled cmd pstate).1.dma_status.testBit i
        = true) ∧
    ((process_events hwEnv0 read_single_cmd State.SendingCmd
        ⟨SDMMC_INTMASK_RTO ||| SDMMC_INTMASK_DTO, 0⟩).ev.sdmmc_status.testBit 9
        = true ∧
     (process_events hwEnv0 read_single_cmd State.SendingCmd
        ⟨SDMMC_INTMASK_RTO ||| SDMMC_INTMASK_DTO, 0⟩).state = State.SendingCmd) ∧
    ((process_events hwEnv0 read_single_cmd State.SendingData
        ⟨SDMMC_INTMASK_DTO, 0⟩).cmd.err = some Error.Timeout ∧
     (process_events hwEnv0 read_single_cmd State.SendingData
        ⟨SDMMC_INTMASK_DTO, 0⟩).ev.sdmmc_status.testBit 9 = false) := by
  refine ⟨?_, ?_, ?_, ?_, by decide, by decide⟩
  · intro hw cmd pstate ev i hi hb
    exact event_loop_sdmmc_conserve hw ev 6 State.None pstate cmd ev [] [] i hi hb
  · intro hw cmd pstate ev i hi hb
    exact event_loop_dma_conserve hw ev 6 State.None pstate cmd ev [] [] i hi hb
  · intro hw received unhandled cmd pstate i hb
    simp [handle_event, Nat.testBit_or, hb]
  · intro hw received unhandled cmd pstate i hb
    simp [handle_event, Nat.testBit_or, hb]

/-- Witness for C1: the conservation laws evaluated on the concrete
RTO-plus-DTO Event in `SendingCmd` (bit 9 survives to the accumulator)
and on the merge of a nonempty accumulator. -/
theorem C1_unhandled_bits_carried_forward_witness :
    ((process_events hwEnv0 read_single_cmd State.SendingCmd
        ⟨SDMMC_INTMASK_RTO ||| SDMMC_INTMASK_DTO, 0⟩).ev.sdmmc_status.testBit 9
        = true ∨
     ∃ s, s ∈ (process_events hwEnv0 read_single_cmd State.SendingCmd
        ⟨SDMMC_INTMASK_RTO ||| SDMMC_INTMASK_DTO, 0⟩).visited ∧
       (consumeMaskSdmmc s).testBit 9 = true) ∧
    (handle_event hwEnv0 ⟨SDMMC_INTMASK_CMD_DONE, 0⟩ ⟨SDMMC_INTMASK_DTO, 0⟩
        read_single_cmd State.SendingCmd).1.sdmmc_status.testBit 9 = true := by
  exact ⟨C1_unhandled_bits_carried_forward.1 hwEnv0 read_single_cmd
      State.SendingCmd ⟨SDMMC_INTMASK_RTO ||| SDMMC_INTMASK_DTO, 0⟩ 9
      (by decide) (by decide),
    C1_unhandled_bits_carried_forward.2.2.1 hwEnv0 ⟨SDMMC_INTMASK_CMD_DONE, 0⟩
      ⟨SDMMC_INTMASK_DTO, 0⟩ read_single_cmd State.SendingCmd 9 (by decide)⟩

/-- With the command register free, a clock-update command always starts
(the card-detect check is bypassed by `update_clk_reg` and no data is
attached). -/
theorem clk_update_cmd_ok (hw : HwEnv) (slot : Slot)
    (htaken : hw.cmd_taken = true) :
    (clk_update_cmd hw slot false).2 = none := by
  unfold clk_update_cmd start_cmd clk_update_hw_cmd
  simp [htaken]

/-- With the command register free, `set_card_clk` succeeds and returns
the achieved frequency together with the two `TMOUT` writes. -/
theorem set_card_clk_eq (hw : HwEnv) (slot : Slot) (freq_khz : Nat)
    (htaken : hw.cmd_taken = true) :
    set_card_clk hw slot freq_khz =
      Except.ok (calc_freq (get_clk_divs freq_khz).1 (get_clk_divs freq_khz).2,
        [tmout_write_data_timeout
          (min (100 * calc_freq (get_clk_divs freq_khz).1 (get_clk_divs freq_khz).2)
            0xffffff),
         tmout_write_response_timeout 255],
        tmout_write_response_timeout 255) := by
  unfold set_card_clk
  simp only [clk_update_cmd_ok hw slot htaken]

/-- `start_cmd` never produces `InvalidSize` (its only errors are
`NotFound` and `Timeout`). -/
theorem start_cmd_no_invalid_size (hw : HwEnv) (slot : Slot)
    (cmd : SdmmcHwCmd) (arg : Nat) :
    (start_cmd hw slot cmd arg).2 ≠ some Error.InvalidSize := by
  unfold start_cmd
  repeat'
    first
      | split
      | simp

/-- Claim C5 (amended): for a descriptor with a data buffer (and the
controller's command register free), a total length that is not a
multiple of the block length makes `do_transaction` panic at
`make_hw_cmd`'s assertion (fail-fast); `Err(InvalidSize)` is returned
exactly when the length is block-aligned but at least 4 and not
word-aligned; and in every case the clock-programming step (hardware
register writes) precedes the rejection. -/
theorem C5_invalid_size_amended (hw : HwEnv) (slot : Slot) (freq_khz : Nat)
    (cmd : SdmmcCmd) (hdata : cmd.data = true)
    (htaken : hw.cmd_taken = true) :
    ((cmd.blklen = 0 ∨ cmd.datalen % cmd.blklen ≠ 0) →
      (do_transaction hw slot freq_khz cmd).2 = DtOutcome.panic) ∧
    ((do_transaction hw slot freq_khz cmd).2 = DtOutcome.fail Error.InvalidSize ↔
      (cmd.blklen ≠ 0 ∧ cmd.datalen % cmd.blklen = 0 ∧ 4 ≤ cmd.datalen ∧
       cmd.datalen % 4 ≠ 0)) ∧
    DtStep.setCardClk slot freq_khz ∈ (do_transaction hw slot freq_khz cmd).1 := by
  have hmem : DtStep.setCardClk slot freq_khz ∈ (do_transaction hw slot freq_khz cmd).1 := by
    unfold do_transaction
    repeat' split
    all_goals simp
  have hpanic : (cmd.blklen = 0 ∨ cmd.datalen % cmd.blklen ≠ 0) →
      (do_transaction hw slot freq_khz cmd).2 = DtOutcome.panic := by
    intro hb
    have hmk : make_hw_cmd cmd = none := by
      unfold make_hw_cmd
      rcases hb with hb | hb <;> simp [hdata, hb]
    simp [do_transaction, set_card_clk_eq hw slot freq_khz htaken, hmk]
  refine ⟨hpanic, ⟨?_, ?_⟩, hmem⟩
  · intro hcontra
    by_cases hb : cmd.blklen = 0 ∨ cmd.datalen % cmd.blklen ≠ 0
    · rw [hpanic hb] at hcontra
      exact absurd hcontra (by simp)
    · push_neg at hb
      by_cases hc : 4 ≤ cmd.datalen ∧ cmd.datalen % 4 ≠ 0
      · exact ⟨hb.1, hb.2, hc.1, hc.2⟩
      · exfalso
        have hmkcond :
            ¬((cmd.data && (cmd.blklen == 0 || cmd.datalen % cmd.blklen != 0)) = true) := by
          simp [hb.1, hb.2]
        have hccond :
            ¬((cmd.data && decide (4 ≤ cmd.datalen) && cmd.datalen % 4 != 0) = true) := by
          simpa [hdata] using hc
        rw [do_transaction] at hcontra
        rw [set_card_clk_eq hw slot freq_khz htaken] at hcontra
        rw [make_hw_cmd, if_neg hmkcond] at hcontra
        simp only [if_neg hccond] at hcontra
        split at hcontra
        · rename_i e he
          simp only [DtOutcome.fail.injEq] at hcontra
          rw [hcontra] at he
          exact absurd he (start_cmd_no_invalid_size hw Slot.Slot1 _ cmd.arg)
        · exact absurd hcontra (by simp)
  · rintro ⟨h1, h2, h3, h4⟩
    have hmkcond :
        ¬((cmd.data && (cmd.blklen == 0 || cmd.datalen % cmd.blklen != 0)) = true) := by
      simp [h1, h2]
    have hccond :
        (cmd.data && decide (4 ≤ cmd.datalen) && cmd.datalen % 4 != 0) = true := by
      simp [hdata, h3, h4]
    rw [do_transaction, set_card_clk_eq hw slot freq_khz htaken,
      make_hw_cmd, if_neg hmkcond]
    simp only [if_pos hccond]

/-- Witness for C5 (amended): the block-aligned but word-misaligned
descriptor (510 bytes, block 255) is rejected with `InvalidSize`, after
the clock-programming step. -/
theorem C5_invalid_size_amended_witness :
    (do_transaction hwEnv0 Slot.Slot1 20000 unaligned_word_cmd).2 =
      DtOutcome.fail Error.InvalidSize ∧
    DtStep.setCardClk Slot.Slot1 20000 ∈
      (do_transaction hwEnv0 Slot.Slot1 20000 unaligned_word_cmd).1 := by
  have h := C5_invalid_size_amended hwEnv0 Slot.Slot1 20000 unaligned_word_cmd
    (by decide) (by decide)
  exact ⟨h.2.1.mpr (by decide), h.2.2⟩

/-- `f ≤ N / (N / f)`: dividing by the floor quotient cannot undershoot. -/
theorem nat_le_div_div (N f : Nat) (hf : 0 < f) (hle : f ≤ N) :
    f ≤ N / (N / f) := by
  have hq : 0 < N / f := Nat.div_pos hle hf
  rw [Nat.le_div_iff_mul_le hq]
  calc f * (N / f) = N / f * f := by ring
    _ ≤ N := Nat.div_mul_le_self N f

/-- `N / (N / f + 1) < f`: dividing by the rounded-up quotient
undershoots. -/
theorem nat_div_succ_div_lt (N f : Nat) (hf : 0 < f) :
    N / (N / f + 1) < f := by
  rw [Nat.div_lt_iff_lt_mul (Nat.succ_pos _)]
  calc N = f * (N / f) + N % f := (Nat.div_add_mod N f).symm
    _ < f * (N / f) + f := Nat.add_lt_add_left (Nat.mod_lt N hf) _
    _ = f * (N / f + 1) := by ring

/-- `calc_freq` with no card divider is `160000 / host_div` (kHz). -/
theorem calc_freq_c0 (h : Nat) : calc_freq h 0 = 160000 / h := by
  unfold calc_freq
  rw [if_pos rfl, Nat.div_one, Nat.div_div_eq_div_mul,
    show 2 * APB_CLK_FREQ = 160000 * 1000 from by norm_num [APB_CLK_FREQ],
    Nat.mul_div_mul_right _ _ (by norm_num : (0:Nat) < 1000)]

/-- `calc_freq` with a nonzero card divider is `80000 / (host · card)`. -/
theorem calc_freq_cpos (h c : Nat) (hc : 0 < c) :
    calc_freq h c = 80000 / (h * c) := by
  unfold calc_freq
  rw [if_neg (by omega : ¬c = 0), Nat.div_div_eq_div_mul,
    Nat.div_div_eq_div_mul,
    show h * (c * 2 * 1000) = h * c * 2000 from by ring,
    show 2 * APB_CLK_FREQ = 80000 * 2000 from by norm_num [APB_CLK_FREQ],
    Nat.mul_div_mul_right _ _ (by norm_num : (0:Nat) < 2000)]

/-- `calc_freq` on the fallback pair `(2, c)` is `40000 / c`. -/
theorem calc_freq_two (c : Nat) (hc : 0 < c) : calc_freq 2 c = 40000 / c := by
  rw [calc_freq_cpos 2 c hc,
    show (80000 : Nat) = 40000 * 2 from by norm_num,
    show 2 * c = c * 2 from by ring]
  exact Nat.mul_div_mul_right _ _ (by norm_num)

/-- Middle band 10001..39999 kHz (excluding the hand-picked 20000): the
computed host divider round-trips to at most the request, and one divider
step faster is at least the request. -/
theorem C6_mid (f : Nat) (h1 : 10001 ≤ f) (h2 : f ≤ 39999) (h3 : f ≠ 20000) :
    calc_freq (get_clk_divs f).1 (get_clk_divs f).2 ≤ f ∧
    f ≤ calc_freq (stepFaster (get_clk_divs f)).1
          (stepFaster (get_clk_divs f)).2 := by
  have hfpos : (0:Nat) < f := by omega
  have hq4 : 4 ≤ 160000 / f := by
    have hmono : (160000:Nat) / 39999 ≤ 160000 / f := Nat.div_le_div_left h2 hfpos
    have hval : (160000:Nat) / 39999 = 4 := by decide
    omega
  have hq15 : 160000 / f ≤ 15 := by
    have hmono : (160000:Nat) / f ≤ 160000 / 10001 :=
      Nat.div_le_div_left h1 (by omega)
    have hval : (160000:Nat) / 10001 = 15 := by decide
    omega
  have e1 : 2 * APB_CLK_FREQ / (f * 1000) = 160000 / f := by
    rw [show 2 * APB_CLK_FREQ = 160000 * 1000 from by norm_num [APB_CLK_FREQ],
      Nat.mul_div_mul_right _ _ (by norm_num : (0:Nat) < 1000)]
  have e2 : 2 * APB_CLK_FREQ % (f * 1000) = 160000 % f * 1000 := by
    rw [show 2 * APB_CLK_FREQ = 160000 * 1000 from by norm_num [APB_CLK_FREQ]]
    exact Nat.mul_mod_mul_right 1000 160000 f
  by_cases hrem : 0 < 160000 % f
  · have hpair : get_clk_divs f = (160000 / f + 1, 0) := by
      simp only [get_clk_divs, e1, e2]
      rw [if_neg (by omega : ¬40000 ≤ f), if_neg h3, if_neg (by omega : ¬f = 400),
        if_neg (by omega : ¬15 < 160000 / f),
        if_pos (Nat.mul_pos hrem (by norm_num : (0:Nat) < 1000)),
        Nat.mod_eq_of_lt (by omega : 160000 / f + 1 < 256)]
    constructor
    · simp only [hpair]
      rw [calc_freq_c0]
      exact le_of_lt (nat_div_succ_div_lt 160000 f hfpos)
    · simp only [hpair, stepFaster]
      rw [Nat.add_sub_cancel, calc_freq_c0]
      exact nat_le_div_div 160000 f hfpos (by omega)
  · have hdvd : f ∣ 160000 := Nat.dvd_of_mod_eq_zero (by omega)
    have hpair : get_clk_divs f = (160000 / f, 0) := by
      simp only [get_clk_divs, e1, e2]
      rw [if_neg (by omega : ¬40000 ≤ f), if_neg h3, if_neg (by omega : ¬f = 400),
        if_neg (by omega : ¬15 < 160000 / f),
        if_neg (by omega : ¬0 < 160000 % f * 1000),
        Nat.mod_eq_of_lt (by omega : 160000 / f < 256)]
    have hexact : 160000 / (160000 / f) = f := Nat.div_div_self hdvd (by norm_num)
    constructor
    · simp only [hpair]
      rw [calc_freq_c0, hexact]
    · simp only [hpair, stepFaster]
      rw [calc_freq_c0]
      calc f = 160000 / (160000 / f) := hexact.symm
        _ ≤ 160000 / (160000 / f - 1) :=
            Nat.div_le_div_left (by omega) (by omega)

/-- Low band 157..10000 kHz (excluding the hand-picked 400): the fallback
pair `(2, card_div)` round-trips to at most the request, and one divider
step faster is at least the request. -/
theorem C6_low (f : Nat) (h1 : 157 ≤ f) (h2 : f ≤ 10000) (h3 : f ≠ 400) :
    calc_freq (get_clk_divs f).1 (get_clk_divs f).2 ≤ f ∧
    f ≤ calc_freq (stepFaster (get_clk_divs f)).1
          (stepFaster (get_clk_divs f)).2 := by
  have hfpos : (0:Nat) < f := by omega
  have hq16 : 16 ≤ 160000 / f := by
    have hmono : (160000:Nat) / 10000 ≤ 160000 / f := Nat.div_le_div_left h2 hfpos
    have hval : (160000:Nat) / 10000 = 16 := by decide
    omega
  have hc4 : 4 ≤ 40000 / f := by
    have hmono : (40000:Nat) / 10000 ≤ 40000 / f := Nat.div_le_div_left h2 hfpos
    have hval : (40000:Nat) / 10000 = 4 := by decide
    omega
  have hc254 : 40000 / f ≤ 254 := by
    have hmono : (40000:Nat) / f ≤ 40000 / 157 := Nat.div_le_div_left h1 (by omega)
    have hval : (40000:Nat) / 157 = 254 := by decide
    omega
  have e1 : 2 * APB_CLK_FREQ / (f * 1000) = 160000 / f := by
    rw [show 2 * APB_CLK_FREQ = 160000 * 1000 from by norm_num [APB_CLK_FREQ],
      Nat.mul_div_mul_right _ _ (by norm_num : (0:Nat) < 1000)]
  have e3 : APB_CLK_FREQ / (2 * f * 1000) = 40000 / f := by
    rw [show APB_CLK_FREQ = 40000 * 2000 from by norm_num [APB_CLK_FREQ],
      show 2 * f * 1000 = f * 2000 from by ring,
      Nat.mul_div_mul_right _ _ (by norm_num : (0:Nat) < 2000)]
  have e4 : APB_CLK_FREQ % (2 * f * 1000) = 40000 % f * 2000 := by
    rw [show APB_CLK_FREQ = 40000 * 2000 from by norm_num [APB_CLK_FREQ],
      show 2 * f * 1000 = f * 2000 from by ring]
    exact Nat.mul_mod_mul_right 2000 40000 f
  by_cases hrem : 0 < 40000 % f
  · have hpair : get_clk_divs f = (2, 40000 / f + 1) := by
      simp only [get_clk_divs, e1, e3, e4]
      rw [if_neg (by omega : ¬40000 ≤ f), if_neg (by omega : ¬f = 20000),
        if_neg h3, if_pos (by omega : 15 < 160000 / f),
        if_pos (Nat.mul_pos hrem (by norm_num : (0:Nat) < 2000)),
        Nat.mod_eq_of_lt (by omega : 40000 / f + 1 < 256)]
    constructor
    · simp only [hpair]
      rw [calc_freq_two _ (by omega)]
      exact le_of_lt (nat_div_succ_div_lt 40000 f hfpos)
    · simp only [hpair, stepFaster]
      rw [calc_freq_two _ (by omega)]
      exact nat_le_div_div 40000 f hfpos (by omega)
  · have hdvd : f ∣ 40000 := Nat.dvd_of_mod_eq_zero (by omega)
    have hexact : 40000 / (40000 / f) = f := Nat.div_div_self hdvd (by norm_num)
    have hpair : get_clk_divs f = (2, 40000 / f) := by
      simp only [get_clk_divs, e1, e3, e4]
      rw [if_neg (by omega : ¬40000 ≤ f), if_neg (by omega : ¬f = 20000),
        if_neg h3, if_pos (by omega : 15 < 160000 / f),
        if_neg (by omega : ¬0 < 40000 % f * 2000),
        Nat.mod_eq_of_lt (by omega : 40000 / f < 256)]
    obtain ⟨cp, hcp⟩ : ∃ cp, 40000 / f = cp + 1 := ⟨40000 / f - 1, by omega⟩
    constructor
    · simp only [hpair]
      rw [calc_freq_two _ (by omega), hexact]
    · simp only [hpair, hcp, stepFaster]
      rw [calc_freq_two _ (by omega : (0:Nat) < cp)]
      calc f = 40000 / (40000 / f) := hexact.symm
        _ = 40000 / (cp + 1) := by rw [hcp]
        _ ≤ 40000 / cp := Nat.div_le_div_left (by omega) (by omega)

/-- Claim C6 (amended): for supported requests up to the high-speed
threshold (157 ≤ f ≤ 40000 kHz), the divider pair chosen by
`get_clk_divs` round-trips through `calc_freq` to an achieved frequency
at most the request, and every hardware divider pair that does not exceed
the request achieves at most the frequency of the pair one step faster
than the chosen one (within one unit-step of the optimum). -/
theorem C6_round_trip_amended (f : Nat) (hlo : supported_freq f)
    (hhi : f ≤ 40000) :
    calc_freq (get_clk_divs f).1 (get_clk_divs f).2 ≤ f ∧ within_one_step f := by
  unfold supported_freq at hlo
  have key : calc_freq (get_clk_divs f).1 (get_clk_divs f).2 ≤ f ∧
      f ≤ calc_freq (stepFaster (get_clk_divs f)).1
            (stepFaster (get_clk_divs f)).2 := by
    by_cases h40 : f = 40000
    · subst h40
      exact ⟨by decide, by decide⟩
    by_cases h20 : f = 20000
    · subst h20
      exact ⟨by decide, by decide⟩
    by_cases h400 : f = 400
    · subst h400
      exact ⟨by decide, by decide⟩
    by_cases hmid : 10001 ≤ f
    · exact C6_mid f hmid (by omega) h20
    · exact C6_low f hlo (by omega) h400
  exact ⟨key.1, fun h _ c _ _ hle => le_trans hle key.2⟩

/-- Witness for C6 (amended): the 30000 kHz request achieves 26666 kHz,
within one step of the optimum. -/
theorem C6_round_trip_amended_witness :
    calc_freq (get_clk_divs 30000).1 (get_clk_divs 30000).2 ≤ 30000 ∧
    within_one_step 30000 :=
  C6_round_trip_amended 30000 (by unfold supported_freq; decide) (by decide)

end SdmmcHost
